import Mathlib

/-!
Verification of the imaginify SaaS core against its source.

Shallow embedding of:
  * the Mongo-backed persistence actions over `User` and `Transaction`
    documents (`createUser`, `getUserById`, `deleteUser`, `updateCredits`,
    `createTransaction`),
  * the Stripe checkout-session construction (`checkoutCredits`),
  * the cached database connection (`connectToDatabase`), including an
    interleaving model for concurrent callers,
  * the client transformation form (`onTransformHandler`, the debounced
    `onInputChangeHandler`, and the insufficient-credits guard).

Stateful JavaScript becomes explicit state passing; `throw` inside the
`try` blocks becomes `Except.error`; the shared `handleError` catch-all
(absent from the sources shown, modelled from the spec) maps every error
to `none`, so actions return `Option`.
-/

namespace Imaginify

/-! ## JSON values

`JSON.parse(JSON.stringify(x))` is modelled as encoding a record to a flat
JSON document (an association list of leaf values) and decoding it back.
JSON numbers are modelled exactly: integers by `jint`, decimal amounts by
`jnum` over `ℚ`. -/

inductive JLeaf where
  | jstr (s : String)
  | jint (n : Int)
  | jnum (q : ℚ)
  | jbool (b : Bool)
  deriving Repr, DecidableEq

abbrev JDoc := List (String × JLeaf)

def jleafToStr : JLeaf → Option String
  | .jstr s => some s
  | _ => none

def jleafToInt : JLeaf → Option Int
  | .jint n => some n
  | _ => none

def jleafToNum : JLeaf → Option ℚ
  | .jnum q => some q
  | _ => none

/-- First-match lookup in an association list (JS object field access /
Mongo first-match semantics). -/
def lookupKey (k : String) : List (String × α) → Option α
  | [] => none
  | kv :: rest => if kv.1 = k then some kv.2 else lookupKey k rest

@[simp] theorem lookupKey_nil (k : String) : lookupKey k ([] : List (String × α)) = none := rfl

@[simp] theorem lookupKey_cons (k : String) (kv : String × α) (rest : List (String × α)) :
    lookupKey k (kv :: rest) = if kv.1 = k then some kv.2 else lookupKey k rest := rfl

theorem lookupKey_append (k : String) (xs ys : List (String × α)) :
    lookupKey k (xs ++ ys) =
      match lookupKey k xs with
      | some v => some v
      | none => lookupKey k ys := by
  induction xs with
  | nil => rfl
  | cons kv rest ih =>
      by_cases h : kv.1 = k <;> simp [lookupKey, h, ih]

/-! ## User documents (`lib/database/models/user.model` data as used by the
actions in `lib/actions/user.actions.ts`). Only the fields the shown code
touches are modelled; `username` stands for the display/profile fields the
data model lists, which `updateUser` overwrites. -/

structure User where
  oid : String
  clerkId : String
  username : String
  creditBalance : Int
  deriving Repr, DecidableEq

/-- Serialization half of `JSON.parse(JSON.stringify(user))`. -/
def toJsonUser (u : User) : JDoc :=
  [("_id", .jstr u.oid), ("clerkId", .jstr u.clerkId),
   ("username", .jstr u.username), ("creditBalance", .jint u.creditBalance)]

/-- Deserialization half of `JSON.parse(JSON.stringify(user))`. -/
def fromJsonUser (d : JDoc) : Option User := do
  let i ← (lookupKey "_id" d).bind jleafToStr
  let c ← (lookupKey "clerkId" d).bind jleafToStr
  let n ← (lookupKey "username" d).bind jleafToStr
  let b ← (lookupKey "creditBalance" d).bind jleafToInt
  pure ⟨i, c, n, b⟩

/-- The serialize/deserialize round trip returns the user unchanged (a deep
copy of a plain document). -/
theorem fromJson_toJson_user (u : User) : fromJsonUser (toJsonUser u) = some u := by
  simp [fromJsonUser, toJsonUser, lookupKey, jleafToStr, jleafToInt, bind, Option.bind]

/-- The users collection, in insertion order. -/
abbrev DB := List User

/-- `User.findOne({clerkId})`: first document whose `clerkId` matches. -/
def findOneClerk (db : DB) (clerkId : String) : Option User :=
  db.find? (fun u => u.clerkId = clerkId)

/-- `User.findOne({_id})` view: first document whose `_id` matches. -/
def lookupById (db : DB) (oid : String) : Option User :=
  db.find? (fun u => u.oid = oid)

/-- `User.findOneAndUpdate({_id}, {$inc: {creditBalance: d}}, {new: true})`:
atomically increments the first matching document, returning the
post-update document and the new collection. -/
def findOneAndUpdateInc : DB → String → Int → Option User × DB
  | [], _, _ => (none, [])
  | u :: rest, oid, d =>
      if u.oid = oid then
        let u2 : User := { u with creditBalance := u.creditBalance + d }
        (some u2, u2 :: rest)
      else
        let r := findOneAndUpdateInc rest oid d
        (r.1, u :: r.2)

/-- `User.findByIdAndDelete(id)`: removes the first matching document,
returning it and the new collection. -/
def findByIdAndDelete : DB → String → Option User × DB
  | [], _ => (none, [])
  | u :: rest, oid =>
      if u.oid = oid then (some u, rest)
      else
        let r := findByIdAndDelete rest oid
        (r.1, u :: r.2)

/-- Modelled from the spec: `handleError` (imported from `../utils`, whose
source is not among the files shown) logs/normalizes the error and does not
rethrow, so the enclosing `catch` block makes the action return no value. -/
def handleError (_e : String) : Option α := none

/-- Result of one server action: the value returned to the caller (`none`
when the catch path ran or the document was absent), the users collection
afterwards, and how many document operations the action performed. -/
structure ARes (α : Type) where
  ret : Option α
  db : DB
  ops : Nat
  deriving Repr, DecidableEq

/-- `createUser` (user.actions.ts lines 64-74): one insert, then returns the
serialized round trip of the new document. -/
def createUser (db : DB) (user : User) : ARes User :=
  ⟨fromJsonUser (toJsonUser user), db ++ [user], 1⟩

/-- Body of `getUserById` inside the `try` (user.actions.ts lines 85-97):
the `findOne` outcome is either a store failure (`Except.error`) or an
optional document; an absent document raises the domain error
`"User not found"`. -/
def getUserByIdBody (findOneOutcome : Except String (Option User)) : Except String User :=
  match findOneOutcome with
  | .error e => .error e
  | .ok none => .error "User not found"
  | .ok (some u) => .ok u

/-- `getUserById` (user.actions.ts lines 85-97). `storeError = some e`
models the `findOne` document operation itself rejecting; `none` models it
answering from `db`. Every raised error lands in `handleError`. -/
def getUserById (db : DB) (userId : String) (storeError : Option String) : ARes User :=
  let outcome : Except String (Option User) :=
    match storeError with
    | some e => .error e
    | none => .ok (findOneClerk db userId)
  match getUserByIdBody outcome with
  | .ok u => ⟨fromJsonUser (toJsonUser u), db, 1⟩
  | .error e => ⟨handleError e, db, 1⟩

/-- `deleteUser` (user.actions.ts lines 136-155): a `findOne` by clerkId,
then — only when a document was found — a `findByIdAndDelete` by its `_id`;
`return deletedUser ? JSON.parse(JSON.stringify(deletedUser)) : null`. -/
def deleteUser (db : DB) (clerkId : String) : ARes User :=
  match findOneClerk db clerkId with
  | none => ⟨handleError "User not found", db, 1⟩
  | some userToDelete =>
      let r := findByIdAndDelete db userToDelete.oid
      ⟨r.1.bind (fun v => fromJsonUser (toJsonUser v)), r.2, 2⟩

/-- `updateCredits` (user.actions.ts lines 167-183): one
`findOneAndUpdate` with `$inc` on `creditBalance` and `new: true`; raises
`"User credits update failed"` when no document matches, which
`handleError` absorbs. -/
def updateCredits (db : DB) (userId : String) (creditFee : Int) : ARes User :=
  let r := findOneAndUpdateInc db userId creditFee
  match r.1 with
  | none => ⟨handleError "User credits update failed", r.2, 1⟩
  | some u => ⟨fromJsonUser (toJsonUser u), r.2, 1⟩

/-- The update document `updateUser` receives (`UpdateUserParams`, declared
outside the files shown): the profile fields to set, modelled by the
`username` field. -/
structure UpdateUserParams where
  username : String
  deriving Repr, DecidableEq

/-- `User.findOneAndUpdate({clerkId}, user, {new: true})`: sets the provided
profile fields on the first document whose `clerkId` matches, returning the
post-update document and the new collection. -/
def findOneAndUpdateSet : DB → String → UpdateUserParams → Option User × DB
  | [], _, _ => (none, [])
  | u :: rest, cid, ps =>
      if u.clerkId = cid then
        let u2 : User := { u with username := ps.username }
        (some u2, u2 :: rest)
      else
        let r := findOneAndUpdateSet rest cid ps
        (r.1, u :: r.2)

/-- `updateUser` (user.actions.ts lines 110-124): one `findOneAndUpdate`
keyed by the identity-provider subject id (`clerkId`), with `new: true`;
raises `"User update failed"` when no document matches, which `handleError`
absorbs. -/
def updateUser (db : DB) (clerkId : String) (ps : UpdateUserParams) : ARes User :=
  let r := findOneAndUpdateSet db clerkId ps
  match r.1 with
  | none => ⟨handleError "User update failed", r.2, 1⟩
  | some u => ⟨fromJsonUser (toJsonUser u), r.2, 1⟩

/-! ## Transaction documents and `createTransaction`
(`lib/actions/transaction.actions.ts`) -/

structure CreateTransactionParams where
  stripeId : String
  amount : ℚ
  plan : String
  credits : Int
  buyerId : String
  deriving Repr, DecidableEq

structure TransactionRec where
  stripeId : String
  amount : ℚ
  plan : String
  credits : Int
  buyerId : String
  buyer : String
  deriving Repr, DecidableEq

/-- `Transaction.create({...transaction, buyer: transaction.buyerId})`. -/
def mkTransaction (t : CreateTransactionParams) : TransactionRec :=
  ⟨t.stripeId, t.amount, t.plan, t.credits, t.buyerId, t.buyerId⟩

def toJsonTx (tx : TransactionRec) : JDoc :=
  [("stripeId", .jstr tx.stripeId), ("amount", .jnum tx.amount),
   ("plan", .jstr tx.plan), ("credits", .jint tx.credits),
   ("buyerId", .jstr tx.buyerId), ("buyer", .jstr tx.buyer)]

def fromJsonTx (d : JDoc) : Option TransactionRec := do
  let s ← (lookupKey "stripeId" d).bind jleafToStr
  let a ← (lookupKey "amount" d).bind jleafToNum
  let p ← (lookupKey "plan" d).bind jleafToStr
  let c ← (lookupKey "credits" d).bind jleafToInt
  let bi ← (lookupKey "buyerId" d).bind jleafToStr
  let b ← (lookupKey "buyer" d).bind jleafToStr
  pure ⟨s, a, p, c, bi, b⟩

theorem fromJson_toJson_tx (tx : TransactionRec) : fromJsonTx (toJsonTx tx) = some tx := by
  simp [fromJsonTx, toJsonTx, lookupKey, jleafToStr, jleafToInt, jleafToNum, bind, Option.bind]

/-- The whole store: the users collection and the transactions collection. -/
structure AppDB where
  users : DB
  txs : List TransactionRec
  deriving Repr, DecidableEq

/-- `createTransaction` (transaction.actions.ts lines 51-67): connect, insert
the Transaction document (tagging `buyer` with the buyer id), then invoke
`updateCredits(buyerId, credits)`; the credit step's result is ignored and
the round-tripped transaction document is returned. -/
def createTransaction (adb : AppDB) (t : CreateTransactionParams) :
    Option TransactionRec × AppDB :=
  let newTransaction := mkTransaction t
  let txs2 := adb.txs ++ [newTransaction]
  let credit := updateCredits adb.users t.buyerId t.credits
  (fromJsonTx (toJsonTx newTransaction), ⟨credit.db, txs2⟩)

/-! ## Checkout (`checkoutCredits`, transaction.actions.ts lines 17-46) -/

structure CheckoutTransactionParams where
  plan : String
  amount : ℚ
  credits : Int
  buyerId : String
  deriving Repr, DecidableEq

structure PriceData where
  currency : String
  unit_amount : ℚ
  product_name : String
  deriving Repr, DecidableEq

structure LineItem where
  price_data : PriceData
  quantity : Nat
  deriving Repr, DecidableEq

structure SessionMetadata where
  plan : String
  credits : Int
  buyerId : String
  deriving Repr, DecidableEq

structure CheckoutSessionParams where
  line_items : List LineItem
  metadata : SessionMetadata
  mode : String
  success_url : String
  cancel_url : String
  deriving Repr, DecidableEq

structure StripeSession where
  url : Option String
  deriving Repr, DecidableEq

/-- The request object passed to `stripe.checkout.sessions.create`
(transaction.actions.ts lines 22-43): one line item with currency `usd`,
`unit_amount = Number(transaction.amount) * 100`, quantity 1, and metadata
holding exactly plan, credits and buyerId. -/
def buildCheckoutSession (serverUrl : String) (t : CheckoutTransactionParams) :
    CheckoutSessionParams :=
  { line_items := [⟨⟨"usd", t.amount * 100, t.plan⟩, 1⟩],
    metadata := ⟨t.plan, t.credits, t.buyerId⟩,
    mode := "payment",
    success_url := serverUrl ++ "/profile",
    cancel_url := serverUrl ++ "/" }

/-- `checkoutCredits` (transaction.actions.ts lines 17-46): no try/catch and
no database access; builds the session request, calls the provider, and
redirects to `session.url!`. A provider failure propagates to the caller
(`Except.error`); on success the result carries the redirect target. -/
def checkoutCredits (adb : AppDB)
    (provider : CheckoutSessionParams → Except String StripeSession)
    (serverUrl : String) (t : CheckoutTransactionParams) :
    Except String String × AppDB :=
  match provider (buildCheckoutSession serverUrl t) with
  | .error e => (.error e, adb)
  | .ok s =>
      match s.url with
      | some u => (.ok u, adb)
      | none => (.error "session.url is null", adb)

/-! ## Lemmas about the find-and-modify primitives -/

theorem lookupById_cons (u : User) (rest : DB) (oid : String) :
    lookupById (u :: rest) oid = if u.oid = oid then some u else lookupById rest oid := by
  by_cases h : u.oid = oid <;> simp [lookupById, List.find?, h]

theorem findOneClerk_cons (u : User) (rest : DB) (cid : String) :
    findOneClerk (u :: rest) cid =
      if u.clerkId = cid then some u else findOneClerk rest cid := by
  by_cases h : u.clerkId = cid <;> simp [findOneClerk, List.find?, h]

theorem findOneAndUpdateInc_cons (u : User) (rest : DB) (oid : String) (d : Int) :
    findOneAndUpdateInc (u :: rest) oid d =
      if u.oid = oid then
        ((some { u with creditBalance := u.creditBalance + d }),
          { u with creditBalance := u.creditBalance + d } :: rest)
      else
        ((findOneAndUpdateInc rest oid d).1, u :: (findOneAndUpdateInc rest oid d).2) := by
  by_cases h : u.oid = oid <;> simp [findOneAndUpdateInc, h]

theorem findOneAndUpdateInc_fst (db : DB) (oid : String) (d : Int) :
    (findOneAndUpdateInc db oid d).1 =
      (lookupById db oid).map (fun u => { u with creditBalance := u.creditBalance + d }) := by
  induction db with
  | nil => rfl
  | cons u rest ih =>
      rw [findOneAndUpdateInc_cons, lookupById_cons]
      by_cases h : u.oid = oid
      · simp [h]
      · simp [h, ih]

theorem findOneAndUpdateInc_not_found (db : DB) (oid : String) (d : Int)
    (h : lookupById db oid = none) : (findOneAndUpdateInc db oid d).2 = db := by
  induction db with
  | nil => rfl
  | cons u rest ih =>
      rw [lookupById_cons] at h
      by_cases hu : u.oid = oid
      · rw [if_pos hu] at h
        exact absurd h (by simp)
      · rw [if_neg hu] at h
        rw [findOneAndUpdateInc_cons, if_neg hu]
        simp [ih h]

theorem findOneAndUpdateInc_lookup_self (db : DB) (oid : String) (d : Int) :
    lookupById (findOneAndUpdateInc db oid d).2 oid =
      (lookupById db oid).map (fun u => { u with creditBalance := u.creditBalance + d }) := by
  induction db with
  | nil => rfl
  | cons u rest ih =>
      rw [findOneAndUpdateInc_cons]
      by_cases h : u.oid = oid
      · rw [if_pos h]
        simp [lookupById_cons, h]
      · rw [if_neg h]
        simp only [lookupById_cons, h, if_false, if_neg h]
        exact ih

theorem findOneAndUpdateInc_lookup_other (db : DB) (oid oid2 : String) (d : Int)
    (hne : oid2 ≠ oid) :
    lookupById (findOneAndUpdateInc db oid d).2 oid2 = lookupById db oid2 := by
  induction db with
  | nil => rfl
  | cons u rest ih =>
      rw [findOneAndUpdateInc_cons]
      by_cases h : u.oid = oid
      · have h2 : ¬ u.oid = oid2 := fun hc => hne (hc ▸ h ▸ rfl)
        rw [if_pos h]
        simp [lookupById_cons, h2]
      · rw [if_neg h]
        by_cases h2 : u.oid = oid2
        · simp [lookupById_cons, h2]
        · simp only [lookupById_cons, h2, if_false, if_neg h2]
          exact ih

theorem updateCredits_ops (db : DB) (userId : String) (d : Int) :
    (updateCredits db userId d).ops = 1 := by
  cases h : (findOneAndUpdateInc db userId d).1 <;> simp [updateCredits, h]

theorem updateCredits_not_found (db : DB) (userId : String) (d : Int)
    (h : lookupById db userId = none) : updateCredits db userId d = ⟨none, db, 1⟩ := by
  have h1 := findOneAndUpdateInc_fst db userId d
  have h2 := findOneAndUpdateInc_not_found db userId d h
  rw [h] at h1
  simp [updateCredits, h1, h2, handleError]

theorem updateCredits_found_ret (db : DB) (userId : String) (d : Int) (u : User)
    (hu : lookupById db userId = some u) :
    (updateCredits db userId d).ret =
      some { u with creditBalance := u.creditBalance + d } := by
  have h1 := findOneAndUpdateInc_fst db userId d
  rw [hu] at h1
  simp [updateCredits, h1, fromJson_toJson_user]

theorem updateCredits_db (db : DB) (userId : String) (d : Int) :
    (updateCredits db userId d).db = (findOneAndUpdateInc db userId d).2 := by
  cases h : (findOneAndUpdateInc db userId d).1 <;> simp [updateCredits, h]

theorem findOneAndUpdateSet_cons (u : User) (rest : DB) (cid : String)
    (ps : UpdateUserParams) :
    findOneAndUpdateSet (u :: rest) cid ps =
      if u.clerkId = cid then
        ((some { u with username := ps.username }),
          { u with username := ps.username } :: rest)
      else
        ((findOneAndUpdateSet rest cid ps).1, u :: (findOneAndUpdateSet rest cid ps).2) := by
  by_cases h : u.clerkId = cid <;> simp [findOneAndUpdateSet, h]

theorem findOneAndUpdateSet_fst (db : DB) (cid : String) (ps : UpdateUserParams) :
    (findOneAndUpdateSet db cid ps).1 =
      (findOneClerk db cid).map (fun u => { u with username := ps.username }) := by
  induction db with
  | nil => rfl
  | cons u rest ih =>
      rw [findOneAndUpdateSet_cons, findOneClerk_cons]
      by_cases h : u.clerkId = cid
      · simp [h]
      · simp [h, ih]

theorem findOneAndUpdateSet_not_found (db : DB) (cid : String) (ps : UpdateUserParams)
    (h : findOneClerk db cid = none) : (findOneAndUpdateSet db cid ps).2 = db := by
  induction db with
  | nil => rfl
  | cons u rest ih =>
      rw [findOneClerk_cons] at h
      by_cases hu : u.clerkId = cid
      · rw [if_pos hu] at h
        exact absurd h (by simp)
      · rw [if_neg hu] at h
        rw [findOneAndUpdateSet_cons, if_neg hu]
        simp [ih h]

theorem updateUser_ops (db : DB) (cid : String) (ps : UpdateUserParams) :
    (updateUser db cid ps).ops = 1 := by
  cases h : (findOneAndUpdateSet db cid ps).1 <;> simp [updateUser, h]

theorem updateUser_not_found (db : DB) (cid : String) (ps : UpdateUserParams)
    (h : findOneClerk db cid = none) : updateUser db cid ps = ⟨none, db, 1⟩ := by
  have h1 := findOneAndUpdateSet_fst db cid ps
  have h2 := findOneAndUpdateSet_not_found db cid ps h
  rw [h] at h1
  simp [updateUser, h1, h2, handleError]

theorem updateUser_found_ret (db : DB) (cid : String) (ps : UpdateUserParams) (v : User)
    (hv : findOneClerk db cid = some v) :
    (updateUser db cid ps).ret = some { v with username := ps.username } := by
  have h1 := findOneAndUpdateSet_fst db cid ps
  rw [hv] at h1
  simp [updateUser, h1, fromJson_toJson_user]

/-! ## Claim C1 -/

/-- C1: `updateCredits(userId, d)` performs a single find-and-modify; when a
user with balance `b` matches `userId` the stored balance afterwards is
`b + d` and the post-update record is returned; when no user matches it
returns no value (and the store is unchanged). -/
theorem C1_updateCredits (db : DB) (userId : String) (d : Int) :
    (updateCredits db userId d).ops = 1 ∧
    (lookupById db userId = none →
      updateCredits db userId d = ⟨none, db, 1⟩) ∧
    (∀ u, lookupById db userId = some u →
      (updateCredits db userId d).ret =
        some { u with creditBalance := u.creditBalance + d } ∧
      lookupById (updateCredits db userId d).db userId =
        some { u with creditBalance := u.creditBalance + d } ∧
      (∀ oid2, oid2 ≠ userId →
        lookupById (updateCredits db userId d).db oid2 = lookupById db oid2)) := by
  refine ⟨updateCredits_ops db userId d, updateCredits_not_found db userId d, ?_⟩
  intro u hu
  refine ⟨updateCredits_found_ret db userId d u hu, ?_, ?_⟩
  · have h := findOneAndUpdateInc_lookup_self db userId d
    rw [hu] at h
    rw [updateCredits_db]
    exact h
  · intro oid2 hne
    rw [updateCredits_db]
    exact findOneAndUpdateInc_lookup_other db userId oid2 d hne

/-- Witness for C1 at a concrete store: incrementing the only user's
balance 7 by 5 stores and returns balance 12; on an empty store the action
returns no value. -/
theorem C1_updateCredits_witness :
    (updateCredits [⟨"u1", "c1", "n1", 7⟩] "u1" 5).ret = some ⟨"u1", "c1", "n1", 12⟩ ∧
    (updateCredits [] "u1" 5).ret = none := by
  constructor
  · exact ((C1_updateCredits [⟨"u1", "c1", "n1", 7⟩] "u1" 5).2.2 ⟨"u1", "c1", "n1", 7⟩
      (by decide)).1
  · rw [(C1_updateCredits [] "u1" 5).2.1 (by decide)]

/-! ## Claim C3 -/

/-- C3: `createTransaction` persists the Transaction document and then
invokes the credit-ledger operation, a two-step non-atomic sequence: the
transactions collection always gains the new document, the users collection
is whatever `updateCredits` leaves; when the credit step fails (no matching
buyer, the absorbed failure) the Transaction document still exists while
the users collection — hence the buyer's balance — is unchanged, and the
action still returns the transaction (no compensating action). -/
theorem C3_createTransaction (adb : AppDB) (t : CreateTransactionParams) :
    (createTransaction adb t).2.txs = adb.txs ++ [mkTransaction t] ∧
    (createTransaction adb t).2.users = (updateCredits adb.users t.buyerId t.credits).db ∧
    (createTransaction adb t).1 = some (mkTransaction t) ∧
    (lookupById adb.users t.buyerId = none →
      (updateCredits adb.users t.buyerId t.credits).ret = none ∧
      (createTransaction adb t).2.users = adb.users ∧
      mkTransaction t ∈ (createTransaction adb t).2.txs ∧
      (createTransaction adb t).1 = some (mkTransaction t)) := by
  refine ⟨rfl, rfl, by simp [createTransaction, fromJson_toJson_tx], ?_⟩
  intro h
  have hu := updateCredits_not_found adb.users t.buyerId t.credits h
  refine ⟨by rw [hu], ?_, ?_, by simp [createTransaction, fromJson_toJson_tx]⟩
  · show (updateCredits adb.users t.buyerId t.credits).db = adb.users
    rw [hu]
  · show mkTransaction t ∈ adb.txs ++ [mkTransaction t]
    simp

/-- Witness for C3: on a store with no users, creating a transaction for
buyer `"u1"` leaves the users collection empty (credits never granted) while
the transaction document is recorded and returned. -/
theorem C3_createTransaction_witness :
    (createTransaction ⟨[], []⟩ ⟨"s1", 10, "Pro", 100, "u1"⟩).2.users = [] ∧
    mkTransaction ⟨"s1", 10, "Pro", 100, "u1"⟩ ∈
      (createTransaction ⟨[], []⟩ ⟨"s1", 10, "Pro", 100, "u1"⟩).2.txs ∧
    (createTransaction ⟨[], []⟩ ⟨"s1", 10, "Pro", 100, "u1"⟩).1 =
      some (mkTransaction ⟨"s1", 10, "Pro", 100, "u1"⟩) := by
  have h := (C3_createTransaction ⟨[], []⟩ ⟨"s1", 10, "Pro", 100, "u1"⟩).2.2.2 (by decide)
  exact ⟨h.2.1, h.2.2.1, h.2.2.2⟩

/-! ## Claim C5 -/

/-- C5: `checkoutCredits` builds a single-line-item session with quantity 1,
fixed currency `"usd"`, unit price `amount * 100` minor units, and metadata
exactly `{plan, credits, buyerId}`; amount 10.00 yields 1000 minor units; no
local persistence occurs (the store passes through unchanged); a provider
failure propagates unhandled to the caller. -/
theorem C5_checkoutCredits (adb : AppDB)
    (provider : CheckoutSessionParams → Except String StripeSession)
    (serverUrl : String) (t : CheckoutTransactionParams) :
    (buildCheckoutSession serverUrl t).line_items =
      [⟨⟨"usd", t.amount * 100, t.plan⟩, 1⟩] ∧
    (buildCheckoutSession serverUrl t).metadata = ⟨t.plan, t.credits, t.buyerId⟩ ∧
    (t.amount = 10 → (buildCheckoutSession serverUrl t).line_items =
      [⟨⟨"usd", 1000, t.plan⟩, 1⟩]) ∧
    (checkoutCredits adb provider serverUrl t).2 = adb ∧
    (∀ e, provider (buildCheckoutSession serverUrl t) = .error e →
      (checkoutCredits adb provider serverUrl t).1 = .error e) := by
  refine ⟨rfl, rfl, ?_, ?_, ?_⟩
  · intro h
    simp [buildCheckoutSession, h]
    norm_num
  · cases hp : provider (buildCheckoutSession serverUrl t) with
    | error e => simp [checkoutCredits, hp]
    | ok s =>
        cases hu : s.url <;> simp [checkoutCredits, hp, hu]
  · intro e hp
    simp [checkoutCredits, hp]

/-- Witness for C5: amount 10.00 with plan `"Pro"` yields a 1000-minor-unit
line item and metadata `{plan := "Pro", credits := 500, buyerId := "b1"}`;
a provider that fails with `"boom"` makes the call fail with `"boom"` while
the store is untouched. -/
theorem C5_checkoutCredits_witness :
    (buildCheckoutSession "https://app" ⟨"Pro", 10, 500, "b1"⟩).line_items =
      [⟨⟨"usd", 1000, "Pro"⟩, 1⟩] ∧
    (buildCheckoutSession "https://app" ⟨"Pro", 10, 500, "b1"⟩).metadata =
      ⟨"Pro", 500, "b1"⟩ ∧
    (checkoutCredits ⟨[], []⟩ (fun _ => .error "boom") "https://app"
        ⟨"Pro", 10, 500, "b1"⟩).1 = .error "boom" ∧
    (checkoutCredits ⟨[], []⟩ (fun _ => .error "boom") "https://app"
        ⟨"Pro", 10, 500, "b1"⟩).2 = ⟨[], []⟩ := by
  have h := C5_checkoutCredits ⟨[], []⟩ (fun _ => .error "boom") "https://app"
    ⟨"Pro", 10, 500, "b1"⟩
  exact ⟨h.2.2.1 rfl, h.2.1, h.2.2.2.2 "boom" rfl, h.2.2.2.1⟩

/-! ## Lemmas about `getUserById` and `deleteUser` -/

theorem getUserById_ops (db : DB) (userId : String) (se : Option String) :
    (getUserById db userId se).ops = 1 := by
  cases se with
  | some e => rfl
  | none =>
      cases h : findOneClerk db userId <;> simp [getUserById, getUserByIdBody, h]

theorem getUserById_found (db : DB) (userId : String) (v : User)
    (h : findOneClerk db userId = some v) :
    (getUserById db userId none).ret = some v := by
  simp [getUserById, getUserByIdBody, h, fromJson_toJson_user]

theorem getUserById_not_found (db : DB) (userId : String)
    (h : findOneClerk db userId = none) : (getUserById db userId none).ret = none := by
  simp [getUserById, getUserByIdBody, h, handleError]

theorem findByIdAndDelete_fst (db : DB) (oid : String) :
    (findByIdAndDelete db oid).1 = lookupById db oid := by
  induction db with
  | nil => rfl
  | cons u rest ih =>
      rw [lookupById_cons]
      by_cases h : u.oid = oid <;> simp [findByIdAndDelete, h, ih]

theorem lookupById_isSome_of_mem (db : DB) (u : User) (hu : u ∈ db) :
    ∃ v, lookupById db u.oid = some v := by
  cases h : lookupById db u.oid with
  | some v => exact ⟨v, rfl⟩
  | none =>
      rw [lookupById, List.find?_eq_none] at h
      exact absurd (by simp) (h u hu)

theorem findByIdAndDelete_length (db : DB) (oid : String) (v : User)
    (h : lookupById db oid = some v) :
    (findByIdAndDelete db oid).2.length + 1 = db.length := by
  induction db with
  | nil => simp [lookupById] at h
  | cons u rest ih =>
      rw [lookupById_cons] at h
      by_cases hu : u.oid = oid
      · simp [findByIdAndDelete, hu]
      · rw [if_neg hu] at h
        have hstep : findByIdAndDelete (u :: rest) oid =
            ((findByIdAndDelete rest oid).1, u :: (findByIdAndDelete rest oid).2) := by
          simp [findByIdAndDelete, hu]
        rw [hstep]
        simp only [List.length_cons]
        rw [ih h]

theorem deleteUser_not_found (db : DB) (cid : String)
    (h : findOneClerk db cid = none) : deleteUser db cid = ⟨none, db, 1⟩ := by
  simp [deleteUser, h, handleError]

theorem deleteUser_found (db : DB) (cid : String) (v : User)
    (h : findOneClerk db cid = some v) :
    (deleteUser db cid).ops = 2 ∧
    (deleteUser db cid).ret = lookupById db v.oid ∧
    (deleteUser db cid).db.length + 1 = db.length := by
  have hmem : v ∈ db := List.mem_of_find?_eq_some h
  obtain ⟨w, hw⟩ := lookupById_isSome_of_mem db v hmem
  have hfst := findByIdAndDelete_fst db v.oid
  refine ⟨by simp [deleteUser, h], ?_, ?_⟩
  · simp [deleteUser, h, hfst, hw, fromJson_toJson_user]
  · simp only [deleteUser, h]
    exact findByIdAndDelete_length db v.oid w hw

/-! ## Claim C4 -/

/-- C4: for a subject id with no matching user, `getUserById` raises the
internal `"User not found"` error, the shared handler absorbs it, and the
caller receives no value rather than an exception; a store failure is also
absorbed into no value, so the caller cannot distinguish the two. -/
theorem C4_getUserById (db : DB) (userId : String) :
    (findOneClerk db userId = none →
      (getUserById db userId none).ret = none ∧
      getUserByIdBody (.ok (findOneClerk db userId)) = .error "User not found") ∧
    (∀ e, (getUserById db userId (some e)).ret = none) := by
  constructor
  · intro h
    constructor
    · exact getUserById_not_found db userId h
    · rw [h]; rfl
  · intro e
    simp [getUserById, getUserByIdBody, handleError]

/-- Witness for C4: on an empty store, looking up `"nobody"` yields no value
while the body raised `"User not found"`; a store failure `"net down"` also
yields no value. -/
theorem C4_getUserById_witness :
    (getUserById [] "nobody" none).ret = none ∧
    getUserByIdBody (.ok (findOneClerk [] "nobody")) = .error "User not found" ∧
    (getUserById [] "nobody" (some "net down")).ret = none := by
  have h := C4_getUserById [] "nobody"
  have h1 := h.1 (by decide)
  exact ⟨h1.1, h1.2, h.2 "net down"⟩

/-! ## Claim C8 -/

/-- C8 (amended): each persistence operation over User and Transaction
records performs exactly one document operation — except `deleteUser`,
which performs a find-one followed by a find-one-and-delete when the user
exists, and `createTransaction`, whose own document operation is the single
insert on the Transaction collection, after which it invokes the
separately-counted credit-ledger operation — and on success returns the
serialize/deserialize round trip of the affected document (a deep-copied
plain value), while on failure the error is routed through the shared
handler and no value is returned. -/
theorem C8_persistence_ops (db : DB) (u : User) (cid userId : String) (d : Int)
    (ps : UpdateUserParams) (adb : AppDB) (t : CreateTransactionParams) :
    (createUser db u).ops = 1 ∧
    (createUser db u).ret = some u ∧
    (createUser db u).db = db ++ [u] ∧
    (∀ se, (getUserById db cid se).ops = 1) ∧
    (∀ v, findOneClerk db cid = some v → (getUserById db cid none).ret = some v) ∧
    (findOneClerk db cid = none → (getUserById db cid none).ret = none) ∧
    (updateUser db cid ps).ops = 1 ∧
    (findOneClerk db cid = none → updateUser db cid ps = ⟨none, db, 1⟩) ∧
    (∀ v, findOneClerk db cid = some v →
      (updateUser db cid ps).ret = some { v with username := ps.username }) ∧
    (updateCredits db userId d).ops = 1 ∧
    (lookupById db userId = none → (updateCredits db userId d).ret = none) ∧
    (findOneClerk db cid = none → deleteUser db cid = ⟨none, db, 1⟩) ∧
    (∀ v, findOneClerk db cid = some v →
      (deleteUser db cid).ops = 2 ∧
      (deleteUser db cid).ret = lookupById db v.oid ∧
      (deleteUser db cid).db.length + 1 = db.length) ∧
    (createTransaction adb t).2.txs = adb.txs ++ [mkTransaction t] ∧
    (createTransaction adb t).2.users =
      (updateCredits adb.users t.buyerId t.credits).db ∧
    (createTransaction adb t).1 = some (mkTransaction t) := by
  refine ⟨rfl, by simp [createUser, fromJson_toJson_user], rfl,
    getUserById_ops db cid, getUserById_found db cid, getUserById_not_found db cid,
    updateUser_ops db cid ps, updateUser_not_found db cid ps,
    fun v hv => updateUser_found_ret db cid ps v hv,
    updateCredits_ops db userId d, ?_,
    deleteUser_not_found db cid, deleteUser_found db cid,
    rfl, rfl, by simp [createTransaction, fromJson_toJson_tx]⟩
  intro h
  rw [updateCredits_not_found db userId d h]

/-- Witness for C8 on a one-user store: `getUserById` finds and round-trips
the user, `updateUser` overwrites the profile field (or returns no value
when the subject id matches nothing), `deleteUser` performs two document
operations and removes exactly one document, the not-found paths of
`updateCredits` and `deleteUser` return no value, and `createTransaction`
inserts exactly one Transaction document and returns it. -/
theorem C8_persistence_ops_witness :
    (createUser [] ⟨"u1", "c1", "n1", 7⟩).ret = some ⟨"u1", "c1", "n1", 7⟩ ∧
    (getUserById [⟨"u1", "c1", "n1", 7⟩] "c1" none).ret = some ⟨"u1", "c1", "n1", 7⟩ ∧
    (updateUser [⟨"u1", "c1", "n1", 7⟩] "c1" ⟨"n2"⟩).ret = some ⟨"u1", "c1", "n2", 7⟩ ∧
    (updateUser [⟨"u1", "c1", "n1", 7⟩] "zzz" ⟨"n2"⟩).ret = none ∧
    (updateCredits [⟨"u1", "c1", "n1", 7⟩] "zzz" 5).ret = none ∧
    (deleteUser [⟨"u1", "c1", "n1", 7⟩] "c1").ops = 2 ∧
    (deleteUser [⟨"u1", "c1", "n1", 7⟩] "c1").db.length + 1 = 1 ∧
    (deleteUser [⟨"u1", "c1", "n1", 7⟩] "zzz").ret = none ∧
    (createTransaction ⟨[], []⟩ ⟨"s1", 10, "Pro", 100, "u1"⟩).2.txs =
      [mkTransaction ⟨"s1", 10, "Pro", 100, "u1"⟩] ∧
    (createTransaction ⟨[], []⟩ ⟨"s1", 10, "Pro", 100, "u1"⟩).1 =
      some (mkTransaction ⟨"s1", 10, "Pro", 100, "u1"⟩) := by
  have hA := C8_persistence_ops [⟨"u1", "c1", "n1", 7⟩] ⟨"u1", "c1", "n1", 7⟩ "c1" "zzz" 5
    ⟨"n2"⟩ ⟨[], []⟩ ⟨"s1", 10, "Pro", 100, "u1"⟩
  have hB := C8_persistence_ops [⟨"u1", "c1", "n1", 7⟩] ⟨"u1", "c1", "n1", 7⟩ "zzz" "zzz" 5
    ⟨"n2"⟩ ⟨[], []⟩ ⟨"s1", 10, "Pro", 100, "u1"⟩
  have hC := C8_persistence_ops [] ⟨"u1", "c1", "n1", 7⟩ "c1" "zzz" 5
    ⟨"n2"⟩ ⟨[], []⟩ ⟨"s1", 10, "Pro", 100, "u1"⟩
  obtain ⟨-, hcreate, -, -, hget, -, -, -, hupd, -, hcred, -, hdel, htx1, -, htx3⟩ := hA
  obtain ⟨-, -, -, -, -, -, -, hupdnf, -, -, -, hdelnf, -, -, -, -⟩ := hB
  have hdelfound := hdel ⟨"u1", "c1", "n1", 7⟩ (by decide)
  refine ⟨hC.2.1, hget ⟨"u1", "c1", "n1", 7⟩ (by decide),
    hupd ⟨"u1", "c1", "n1", 7⟩ (by decide), ?_, hcred (by decide),
    hdelfound.1, by simpa using hdelfound.2.2, ?_, by simpa using htx1, htx3⟩
  · rw [hupdnf (by decide)]
  · rw [hdelnf (by decide)]

/-- C8 counterexample: `deleteUser` on an existing user performs two
document operations (a find-one, then a find-one-and-delete), refuting
"exactly one document operation" as stated. -/
theorem C8_counterexample :
    (deleteUser [⟨"u1", "c1", "n1", 7⟩] "c1").ops = 2 ∧
    ¬ (deleteUser [⟨"u1", "c1", "n1", 7⟩] "c1").ops = 1 := by
  decide

/-! ## Transformation configurations and the form controller
(`components/shared/TransformationForm.tsx`)

A configuration is the two-level nested mapping of the data model:
transformation kind → parameter mapping → leaf value. -/

inductive CLeaf where
  | str (s : String)
  | bool (b : Bool)
  | num (n : Int)
  deriving Repr, DecidableEq

abbrev ParamMap := List (String × CLeaf)

abbrev Config := List (String × ParamMap)

/-- JS object spread `{...m, [k]: v}`: an existing key keeps its position
and receives the new value, a new key is appended. -/
def setField (m : List (String × α)) (k : String) (v : α) : List (String × α) :=
  match lookupKey k m with
  | some _ => m.map (fun kv => if kv.1 = k then (k, v) else kv)
  | none => m ++ [(k, v)]

/-- Modelled from the spec: the merge step shared by both levels of
`deepMergeObjects` (imported from `@/lib/utils`, whose source is not among
the files shown). Per the spec, the pending side wins on conflicting keys,
objects merge recursively via `f`, untouched committed entries are
preserved, and keys absent on the pending side do not erase committed
values; committed entries keep their order, pending-only entries follow. -/
def mergeEntries (f : α → α → α) (p c : List (String × α)) : List (String × α) :=
  (c.map (fun kv =>
    match lookupKey kv.1 p with
    | some pv => (kv.1, f pv kv.2)
    | none => kv)) ++
  p.filter (fun kv => (lookupKey kv.1 c).isNone)

/-- Parameter mappings hold leaves, so the pending value replaces the
committed one outright. -/
def mergeParams : ParamMap → ParamMap → ParamMap :=
  mergeEntries (fun pv _ => pv)

/-- Kind-level merge: parameter mappings present on both sides merge
recursively. -/
def mergeConfig : Config → Config → Config :=
  mergeEntries mergeParams

/-- Modelled from the spec: `deepMergeObjects(pending, committed)` on the
nullable arguments the form passes (`newTransformation`,
`transformationConfig`). -/
def deepMergeObjects : Option Config → Option Config → Option Config
  | none, c => c
  | some p, none => some p
  | some p, some c => some (mergeConfig p c)

/-- The form-controller state touched by `onTransformHandler`. -/
structure FormState where
  newTransformation : Option Config
  transformationConfig : Option Config
  isTransforming : Bool
  deriving Repr, DecidableEq

/-- `onTransformHandler` (TransformationForm.tsx lines 202-213): set
`isTransforming`, replace the committed configuration with the deep merge
of the pending one into it, clear the pending configuration. The
`startTransition` credit deduction is asynchronous and does not touch these
three fields. -/
def onTransformHandler (s : FormState) : FormState :=
  { s with
    isTransforming := true,
    transformationConfig := deepMergeObjects s.newTransformation s.transformationConfig,
    newTransformation := none }

/-! ## Lemmas about the deep merge -/

theorem lookupKey_map_mergeStep (f : α → α → α) (p c : List (String × α)) (k : String) :
    lookupKey k (c.map (fun kv =>
        match lookupKey kv.1 p with
        | some pv => (kv.1, f pv kv.2)
        | none => kv)) =
      (lookupKey k c).map (fun cv =>
        match lookupKey k p with
        | some pv => f pv cv
        | none => cv) := by
  induction c with
  | nil => rfl
  | cons kv rest ih =>
      by_cases h : kv.1 = k
      · subst h
        cases hp : lookupKey kv.1 p <;> simp [lookupKey, hp]
      · cases hp : lookupKey kv.1 p <;> simp [lookupKey, h, hp, ih]

theorem lookupKey_filter_absent (p c : List (String × α)) (k : String)
    (h : lookupKey k c = none) :
    lookupKey k (p.filter (fun kv => (lookupKey kv.1 c).isNone)) = lookupKey k p := by
  induction p with
  | nil => rfl
  | cons kv rest ih =>
      by_cases hk : kv.1 = k
      · subst hk
        simp [List.filter, h, lookupKey]
      · cases hkc : (lookupKey kv.1 c).isNone <;> simp [List.filter, hkc, lookupKey, hk, ih]

/-- Keywise description of `mergeEntries`: what a lookup in the merged
mapping yields in terms of the two sides' lookups. -/
def mergeLookup (f : α → α → α) : Option α → Option α → Option α
  | some pv, some cv => some (f pv cv)
  | some pv, none => some pv
  | none, r => r

theorem lookupKey_mergeEntries (f : α → α → α) (p c : List (String × α)) (k : String) :
    lookupKey k (mergeEntries f p c) =
      mergeLookup f (lookupKey k p) (lookupKey k c) := by
  rw [mergeEntries, lookupKey_append, lookupKey_map_mergeStep]
  cases hc : lookupKey k c with
  | some cv => cases hp : lookupKey k p <;> simp [hp, mergeLookup]
  | none =>
      have hfil := lookupKey_filter_absent p c k hc
      cases hp : lookupKey k p <;> simp [hfil, hp, mergeLookup]

/-! ## Claim C2 -/

/-- C2: the commit step replaces the committed configuration with the deep
merge of the pending one into it and clears the pending configuration;
pending values win on conflicting keys, untouched committed branches are
preserved, nested parameter maps merge recursively, keys absent on the
pending side do not erase committed values; the spec's concrete cat/dog
example evaluates as claimed. -/
theorem C2_onTransformHandler (b : Bool) (p c : Config) (k pk : String)
    (pm cm : ParamMap) :
    (onTransformHandler ⟨some p, some c, b⟩).transformationConfig =
      some (mergeConfig p c) ∧
    (onTransformHandler ⟨some p, some c, b⟩).newTransformation = none ∧
    (lookupKey k (mergeConfig p c) =
      mergeLookup mergeParams (lookupKey k p) (lookupKey k c)) ∧
    (lookupKey pk (mergeParams pm cm) =
      match lookupKey pk pm with
      | some pv => some pv
      | none => lookupKey pk cm) ∧
    (onTransformHandler
        ⟨some [("remove", [("prompt", .str "cat")])],
         some [("remove", [("prompt", .str "dog"), ("removeShadow", .bool true)]),
               ("recolor", [("color", .str "red")])],
         false⟩ =
      ⟨none,
       some [("remove", [("prompt", .str "cat"), ("removeShadow", .bool true)]),
             ("recolor", [("color", .str "red")])],
       true⟩) := by
  refine ⟨rfl, rfl, ?_, ?_, by decide⟩
  · rw [mergeConfig]
    exact lookupKey_mergeEntries mergeParams p c k
  · rw [mergeParams, lookupKey_mergeEntries]
    cases hp : lookupKey pk pm <;> cases hc : lookupKey pk cm <;> simp [mergeLookup]

/-! ## Claim C6 -/

/-- The render guard of the insufficient-credits interstitial
(TransformationForm.tsx line 224): `creditBalance < Math.abs(creditFee)`. -/
def rendersInsufficientCreditsModal (creditBalance creditFee : Int) : Bool :=
  creditBalance < |creditFee|

/-- C6: the blocking insufficient-credits interstitial renders if and only
if the balance is strictly below the absolute value of the per-
transformation fee, for any balance and any fee (zero, positive or
negative). -/
theorem C6_insufficientCredits (balance fee : Int) :
    rendersInsufficientCreditsModal balance fee = true ↔ balance < |fee| := by
  simp [rendersInsufficientCreditsModal]

/-! ## Claim C9: the debounced input handler -/

/-- Modelled from the spec: `debounce` (imported from `@/lib/utils`, whose
source is not among the files shown) is single-flight, trailing-edge, with
a fixed delay: each call cancels the previously scheduled callback and
schedules the new one `delay` ms after the call; a scheduled callback fires
only when no further call arrives within `delay`. Given the time-ordered
calls of one editing session, `debounceCommits` returns the values whose
callbacks actually fire, in firing order. -/
def debounceCommits (delay : Nat) : List (Nat × String) → List String
  | [] => []
  | (t, v) :: rest =>
      match rest with
      | [] => [v]
      | (t2, _) :: _ =>
          if t2 < t + delay then debounceCommits delay rest
          else v :: debounceCommits delay rest

/-- The state update the debounced callback of `onInputChangeHandler`
performs (TransformationForm.tsx lines 181-188):
`{...prevState, [type]: {...prevState?.[type],
[fieldName === 'prompt' ? 'prompt' : 'to']: value}}`. -/
def inputCommit (fieldName value ty : String) (st : Option Config) : Option Config :=
  let prev := st.getD []
  let prevTy := (lookupKey ty prev).getD []
  let key := if fieldName = "prompt" then "prompt" else "to"
  some (setField prev ty (setField prevTy key (.str value)))

/-- `onInputChangeHandler` (TransformationForm.tsx lines 175-192) over one
debounce session: each invocation (re)schedules `inputCommit` with its
value through the debounce; the pending configuration receives the commits
that fire. -/
def onInputChangeCommits (delay : Nat) (fieldName ty : String)
    (calls : List (Nat × String)) (st : Option Config) : Option Config :=
  ((debounceCommits delay calls).map (fun v => inputCommit fieldName v ty)).foldl
    (fun acc f => f acc) st

theorem lookupKey_map_set (m : List (String × α)) (k : String) (v : α)
    (h : (lookupKey k m).isSome = true) :
    lookupKey k (m.map (fun kv => if kv.1 = k then (k, v) else kv)) = some v := by
  induction m with
  | nil => simp [lookupKey] at h
  | cons kv rest ih =>
      by_cases hk : kv.1 = k
      · simp [lookupKey, hk]
      · simp only [List.map_cons, lookupKey_cons, hk, if_false, eq_self_iff_true,
          if_neg hk] at h ⊢
        exact ih h

theorem lookupKey_setField_self (m : List (String × α)) (k : String) (v : α) :
    lookupKey k (setField m k v) = some v := by
  cases h : lookupKey k m with
  | none =>
      rw [setField, h, lookupKey_append, h]
      simp [lookupKey]
  | some w =>
      rw [setField, h]
      exact lookupKey_map_set m k v (by rw [h]; rfl)

/-- C9: five invocations of the debounced input handler within one debounce
window commit exactly one pending-configuration update, carrying the value
of the final invocation, and the committed update stores that value under
the handler's field key. -/
theorem C9_debouncedInput (delay t1 t2 t3 t4 t5 : Nat) (v1 v2 v3 v4 v5 : String)
    (fieldName ty : String) (st : Option Config)
    (h12 : t2 < t1 + delay) (h23 : t3 < t2 + delay)
    (h34 : t4 < t3 + delay) (h45 : t5 < t4 + delay) :
    debounceCommits delay [(t1, v1), (t2, v2), (t3, v3), (t4, v4), (t5, v5)] = [v5] ∧
    (debounceCommits delay [(t1, v1), (t2, v2), (t3, v3), (t4, v4), (t5, v5)]).length = 1 ∧
    onInputChangeCommits delay fieldName ty
        [(t1, v1), (t2, v2), (t3, v3), (t4, v4), (t5, v5)] st =
      inputCommit fieldName v5 ty st ∧
    lookupKey (if fieldName = "prompt" then "prompt" else "to")
        ((lookupKey ty ((inputCommit fieldName v5 ty st).getD [])).getD []) =
      some (.str v5) := by
  have hcommits :
      debounceCommits delay [(t1, v1), (t2, v2), (t3, v3), (t4, v4), (t5, v5)] = [v5] := by
    simp [debounceCommits, h12, h23, h34, h45]
  refine ⟨hcommits, by rw [hcommits]; rfl, ?_, ?_⟩
  · rw [onInputChangeCommits, hcommits]
    rfl
  · rw [inputCommit]
    simp only [Option.getD_some]
    rw [lookupKey_setField_self, Option.getD_some, lookupKey_setField_self]

/-- Witness for C9: calls at 0,1,2,3,4 ms with delay 1000 commit only the
final value `"e"`, and the resulting pending configuration holds
`{remove: {prompt: "e"}}`. -/
theorem C9_debouncedInput_witness :
    debounceCommits 1000 [(0, "a"), (1, "b"), (2, "c"), (3, "d"), (4, "e")] = ["e"] ∧
    onInputChangeCommits 1000 "prompt" "remove"
        [(0, "a"), (1, "b"), (2, "c"), (3, "d"), (4, "e")] none =
      some [("remove", [("prompt", .str "e")])] ∧
    lookupKey "prompt"
        ((lookupKey "remove" ((inputCommit "prompt" "e" "remove" none).getD [])).getD []) =
      some (.str "e") := by
  have h := C9_debouncedInput 1000 0 1 2 3 4 "a" "b" "c" "d" "e" "prompt" "remove" none
    (by decide) (by decide) (by decide) (by decide)
  refine ⟨h.1, ?_, ?_⟩
  · rw [h.2.2.1]
    decide
  · have h4 := h.2.2.2
    simp only [if_pos rfl] at h4
    exact h4

/-! ## The cached database connection (`lib/database/mongoose.ts`)

`connectToDatabase` is an async function over the process-wide cache
`global.mongoose = {conn, promise}`. Its single suspension point is
`cached.conn = await cached.promise`, so a call splits into phase A (the
code before the await) and phase B (the resumption); concurrent callers
interleave at that boundary. Promises and connection handles are numbered
in creation order, and `resolve p` gives promise `p`'s outcome. -/

structure ConnectOpts where
  dbName : String
  bufferCommands : Bool
  deriving Repr, DecidableEq

/-- The process-wide cache plus instrumentation: the options of every
`mongoose.connect` call made so far (its length is the number of
connections opened), and how many times each cache slot was assigned. -/
structure ConnState where
  conn : Option Nat
  promise : Option Nat
  openedWith : List ConnectOpts
  promiseWrites : Nat
  connWrites : Nat
  deriving Repr, DecidableEq

def initialConnState : ConnState := ⟨none, none, [], 0, 0⟩

/-- Where one caller of `connectToDatabase` stands. -/
inductive CallerPhase where
  | idle
  | waiting
  | ok (h : Nat)
  | err (msg : String)
  deriving Repr, DecidableEq

/-- Lines 29-42 of mongoose.ts: the early return of `cached.conn`, the
missing-URL configuration error, and
`cached.promise = cached.promise || mongoose.connect(MONGODB_URL,
{dbName: 'imaginify', bufferCommands: false})` — an assignment that runs
(and counts as a slot write) every time this line is reached. The caller
then suspends on the promise (`waiting`). -/
def connectPhaseA (url : Option String) (s : ConnState) : ConnState × CallerPhase :=
  match s.conn with
  | some c => (s, .ok c)
  | none =>
      match url with
      | none => (s, .err "Please define the MONGODB_URL environment variable")
      | some _ =>
          match s.promise with
          | some _ =>
              ({ s with promiseWrites := s.promiseWrites + 1 }, .waiting)
          | none =>
              ({ s with promise := some s.openedWith.length,
                        openedWith := s.openedWith ++ [⟨"imaginify", false⟩],
                        promiseWrites := s.promiseWrites + 1 }, .waiting)

/-- Line 44: `cached.conn = await cached.promise` resumes. When the promise
resolved, the handle is assigned to `cached.conn` and returned; when it
rejected, the `await` rethrows and `cached.conn` is not assigned. -/
def connectPhaseB (resolve : Nat → Option Nat) (s : ConnState) : ConnState × CallerPhase :=
  match s.promise with
  | none => (s, .err "no promise")
  | some p =>
      match resolve p with
      | some h => ({ s with conn := some h, connWrites := s.connWrites + 1 }, .ok h)
      | none => (s, .err "connect failed")

/-- One sequential call to `connectToDatabase`: phase A, then — when the
caller suspended — phase B with nothing interleaved in between. -/
def connectToDatabase (url : Option String) (resolve : Nat → Option Nat)
    (s : ConnState) : ConnState × CallerPhase :=
  match connectPhaseA url s with
  | (s1, .waiting) => connectPhaseB resolve s1
  | r => r

/-- One scheduling turn for a caller: start it, resume it, or — when it
already finished — do nothing. -/
def stepCaller (url : Option String) (resolve : Nat → Option Nat)
    (s : ConnState) (ph : CallerPhase) : ConnState × CallerPhase :=
  match ph with
  | .idle => connectPhaseA url s
  | .waiting => connectPhaseB resolve s
  | r => (s, r)

/-- Interleave two concurrent callers over the shared cache: `false`
schedules caller 0, `true` schedules caller 1. -/
def runSched (url : Option String) (resolve : Nat → Option Nat) :
    List Bool → ConnState × CallerPhase × CallerPhase →
      ConnState × CallerPhase × CallerPhase
  | [], st => st
  | b :: rest, (s, p0, p1) =>
      if b then
        let r := stepCaller url resolve s p1
        runSched url resolve rest (r.1, p0, r.2)
      else
        let r := stepCaller url resolve s p0
        runSched url resolve rest (r.1, r.2, p1)

/-- Every complete interleaving of two callers (each caller takes at most
two turns: suspend, resume). -/
def twoCallerSchedules : List (List Bool) :=
  [[false, false, true, true], [false, true, false, true],
   [false, true, true, false], [true, false, false, true],
   [true, false, true, false], [true, true, false, false]]

/-- Connecting succeeds; promise `p` resolves to handle `p`. -/
def resolveOk : Nat → Option Nat := fun p => some p

/-- Connecting fails: every connect promise rejects. -/
def resolveFail : Nat → Option Nat := fun _ => none

theorem connectToDatabase_cached (url : Option String) (resolve : Nat → Option Nat)
    (s : ConnState) (c : Nat) (h : s.conn = some c) :
    connectToDatabase url resolve s = (s, .ok c) := by
  simp [connectToDatabase, connectPhaseA, h]

/-! ## Claim C7 -/

/-- C7 (amended): `connectToDatabase` fails with the configuration error
when the connection string is absent; otherwise the first call opens one
connection with `bufferCommands: false` and caches the promise and the
resolved handle; every later call — sequential or concurrently interleaved —
returns the same handle and opens no further connection. The cache slots
hold at most one distinct value each, but they are not written at most
once: concurrent callers each re-execute the two assignments, idempotently
re-writing the same promise and the same handle. -/
theorem C7_connectToDatabase (u : String) (s : ConnState) (c : Nat) :
    connectToDatabase none resolveOk initialConnState =
      (initialConnState, .err "Please define the MONGODB_URL environment variable") ∧
    connectToDatabase (some u) resolveOk initialConnState =
      (⟨some 0, some 0, [⟨"imaginify", false⟩], 1, 1⟩, .ok 0) ∧
    (s.conn = some c → connectToDatabase (some u) resolveOk s = (s, .ok c)) ∧
    (∀ sched ∈ twoCallerSchedules,
      (runSched (some u) resolveOk sched (initialConnState, .idle, .idle)).2.1 = .ok 0 ∧
      (runSched (some u) resolveOk sched (initialConnState, .idle, .idle)).2.2 = .ok 0 ∧
      (runSched (some u) resolveOk sched (initialConnState, .idle, .idle)).1.conn = some 0 ∧
      (runSched (some u) resolveOk sched (initialConnState, .idle, .idle)).1.promise = some 0 ∧
      (runSched (some u) resolveOk sched (initialConnState, .idle, .idle)).1.openedWith =
        [⟨"imaginify", false⟩]) := by
  refine ⟨rfl, rfl, connectToDatabase_cached (some u) resolveOk s c, ?_⟩
  intro sched hs
  simp only [twoCallerSchedules, List.mem_cons, List.not_mem_nil, or_false] at hs
  rcases hs with h | h | h | h | h | h <;> subst h <;>
    exact ⟨rfl, rfl, rfl, rfl, rfl⟩

/-- Witness for C7: a call on a cache already holding handle 5 returns 5
and changes nothing; the interleaving where both callers suspend before
either resumes still gives both the one handle 0 with one connection
opened. -/
theorem C7_connectToDatabase_witness :
    connectToDatabase (some "mongodb://db") resolveOk ⟨some 5, some 0, [⟨"imaginify", false⟩], 1, 1⟩ =
      (⟨some 5, some 0, [⟨"imaginify", false⟩], 1, 1⟩, .ok 5) ∧
    (runSched (some "mongodb://db") resolveOk [false, true, false, true]
        (initialConnState, .idle, .idle)).2.1 = .ok 0 ∧
    (runSched (some "mongodb://db") resolveOk [false, true, false, true]
        (initialConnState, .idle, .idle)).1.openedWith = [⟨"imaginify", false⟩] := by
  have h := C7_connectToDatabase "mongodb://db" ⟨some 5, some 0, [⟨"imaginify", false⟩], 1, 1⟩ 5
  have h4 := h.2.2.2 [false, true, false, true] (by decide)
  exact ⟨h.2.2.1 rfl, h4.1, h4.2.2.2.2⟩

/-- C7 counterexample: under the interleaving where both callers pass the
cached-connection check before either resumes, both execute
`cached.promise = ...` and both execute `cached.conn = await ...`: each
cache slot is written twice (with the same value), refuting "the cached
state is written at most once" as stated. -/
theorem C7_counterexample :
    (runSched (some "mongodb://db") resolveOk [false, true, false, true]
        (initialConnState, .idle, .idle)).1.connWrites = 2 ∧
    (runSched (some "mongodb://db") resolveOk [false, true, false, true]
        (initialConnState, .idle, .idle)).1.promiseWrites = 2 ∧
    ¬ (runSched (some "mongodb://db") resolveOk [false, true, false, true]
        (initialConnState, .idle, .idle)).1.connWrites ≤ 1 := by
  decide

/-! ## Claim C10 -/

/-- C10: when the first connection attempt rejects, the failing call leaves
the rejected promise cached with the handle slot still null; any call on
such a state re-awaits that same promise, throws the rejection again,
assigns neither slot a value, and opens no new connection — so the failure
persists for the life of the process. -/
theorem C10_rejectedPromiseSticks (u : String) (s : ConnState) (p : Nat) :
    connectToDatabase (some u) resolveFail initialConnState =
      (⟨none, some 0, [⟨"imaginify", false⟩], 1, 0⟩, .err "connect failed") ∧
    (s.conn = none → s.promise = some p →
      (connectToDatabase (some u) resolveFail s).2 = .err "connect failed" ∧
      (connectToDatabase (some u) resolveFail s).1.conn = none ∧
      (connectToDatabase (some u) resolveFail s).1.promise = some p ∧
      (connectToDatabase (some u) resolveFail s).1.openedWith = s.openedWith) := by
  refine ⟨rfl, ?_⟩
  intro h1 h2
  simp [connectToDatabase, connectPhaseA, connectPhaseB, resolveFail, h1, h2]

/-- Witness for C10: with every connect rejecting, the first call fails and
caches the rejected promise; a second call on the resulting state fails the
same way with the handle slot still null and no new connection opened. -/
theorem C10_rejectedPromiseSticks_witness :
    connectToDatabase (some "mongodb://db") resolveFail initialConnState =
      (⟨none, some 0, [⟨"imaginify", false⟩], 1, 0⟩, .err "connect failed") ∧
    (connectToDatabase (some "mongodb://db") resolveFail
        ⟨none, some 0, [⟨"imaginify", false⟩], 1, 0⟩).2 = .err "connect failed" ∧
    (connectToDatabase (some "mongodb://db") resolveFail
        ⟨none, some 0, [⟨"imaginify", false⟩], 1, 0⟩).1.conn = none ∧
    (connectToDatabase (some "mongodb://db") resolveFail
        ⟨none, some 0, [⟨"imaginify", false⟩], 1, 0⟩).1.openedWith =
      [⟨"imaginify", false⟩] := by
  have h := C10_rejectedPromiseSticks "mongodb://db"
    ⟨none, some 0, [⟨"imaginify", false⟩], 1, 0⟩ 0
  have h2 := h.2 rfl rfl
  exact ⟨h.1, h2.1, h2.2.1, h2.2.2.2⟩

end Imaginify
